import Mathlib

/-!
Shallow embedding of the spewn-app backend (`src/backend/index.js`):
the distribution lifecycle (split validation, distribution computation,
month validation, profile/cycle updates, simulate-distribute, monthly
automation, transaction recording/deletion) together with theorems
settling the specification's claims.

JavaScript numbers are modelled as rationals; a request field that may be
absent (`undefined`) is an `Option`.  `none` also stands for the falsy /
NaN-like values that the backend's `Number(x || 0)` coercion sends to 0.
Objects used as string-keyed records (`splits`, `distribution`) are
association lists.
-/

attribute [local semireducible] Rat.add Rat.sub Rat.mul Rat.inv

namespace Spewn

/-- JS `Number(v || 0)` for a numeric-or-absent value: absent (or falsy /
NaN-like) becomes 0, a number stays itself (note `Number(0 || 0) = 0`). -/
def jsNumOr0 (v : Option ℚ) : ℚ := v.getD 0

/-- JS `x || y` for numbers: `x` when truthy (nonzero), else `y`. -/
def jsOrNum (x : Option ℚ) (y : ℚ) : ℚ :=
  match x with
  | some q => if q = 0 then y else q
  | none => y

/-- JS `x || y` for a string-or-absent `x`: the empty string is falsy. -/
def jsOrStr (x : Option String) (y : String) : String :=
  match x with
  | some s => if s = "" then y else s
  | none => y

/-- JS string truthiness: every string but `""` is truthy. -/
def truthyStr (s : String) : Bool := s != ""

/-- JS `Math.round` on a rational: round half toward positive infinity,
`⌊q + 1/2⌋`, computed as floor division of numerator by denominator. -/
def jsRound (q : ℚ) : ℤ :=
  let r := q + 1 / 2
  Int.fdiv r.num (r.den : ℤ)

theorem jsRound_eq_floor (q : ℚ) : jsRound q = ⌊q + 1 / 2⌋ := by
  unfold jsRound
  rw [Rat.floor_def]
  exact Int.fdiv_eq_ediv _ (Int.ofNat_nonneg _)

/-- `validateMonthFormat` (src/backend/index.js lines 75–81): true iff the
string matches `/^(\d{4})-(\d{2})$/` and `Number` of the two month digits is
between 1 and 12. -/
def validateMonthFormat (month : String) : Bool :=
  match month.data with
  | [y1, y2, y3, y4, d, m1, m2] =>
      y1.isDigit && y2.isDigit && y3.isDigit && y4.isDigit && d == '-' &&
      m1.isDigit && m2.isDigit &&
      decide (1 ≤ 10 * (m1.toNat - 48) + (m2.toNat - 48)) &&
      decide (10 * (m1.toNat - 48) + (m2.toNat - 48) ≤ 12)
  | _ => false

/-- The splits-sum computed at both endpoints (lines 253 and 352):
`Object.values(splits).reduce((a, b) => a + Number(b || 0), 0)`. -/
def splitsSum (splits : List (String × Option ℚ)) : ℚ :=
  splits.foldl (fun a b => a + jsNumOr0 b.2) 0

/-- `computeDistribution` (lines 83–90): for each bucket of `splits`,
`Math.round((Number(salary||0) + Number(extraIncome||0)) * Number(pct||0) / 100)`. -/
def computeDistribution (salary : Option ℚ) (splits : List (String × Option ℚ))
    (extraIncome : Option ℚ) : List (String × ℚ) :=
  let total := jsNumOr0 salary + jsNumOr0 extraIncome
  splits.map fun p => (p.1, ((jsRound (total * jsNumOr0 p.2 / 100) : ℤ) : ℚ))

/-- One entry of `salaryHistory` as the cycle path writes it (lines 270–275). -/
structure HistoryEntry where
  salary : ℚ
  startMonth : String
  extraIncome : ℚ
  createdAt : Nat
deriving DecidableEq

/-- The persisted user-record fields the distribution lifecycle touches
(models/User.js). -/
structure UserState where
  salary : ℚ
  salaryFrequency : String
  splits : List (String × Option ℚ)
  distribution : List (String × ℚ)
  preset : String
  automate : Bool
  activeTracking : Bool
  startMonth : String
  salaryLockedMonth : String
  lastAutomatedMonth : String
  salaryHistory : List HistoryEntry
  onboardComplete : Bool
deriving DecidableEq

/-- An HTTP outcome: success, or an error status with its message. -/
inductive Resp where
  | ok
  | err (status : Nat) (msg : String)
deriving DecidableEq

/-- The body of `PUT /api/profile` (line 244–247). -/
structure ProfileRequest where
  salary : Option ℚ
  salaryFrequency : Option String
  splits : Option (List (String × Option ℚ))
  preset : Option String
  automate : Option Bool
  startMonth : Option String
  startNewCycle : Bool
  extraIncome : Option ℚ
deriving DecidableEq

/-- The pre-check at lines 256–258: fails when `startMonth` is supplied,
truthy and not in YYYY-MM format. -/
def startMonthBadFormat (sm : Option String) : Bool :=
  match sm with
  | some m => truthyStr m && !validateMonthFormat m
  | none => false

/-- `PUT /api/profile` (lines 242–341).  Returns the response outcome and
the user record as persisted after the call (unchanged on every error
path, since the handler returns before any write). -/
def putProfile (u : UserState) (r : ProfileRequest) (now : Nat) : Resp × UserState :=
  let willActivateTracking := r.automate.getD false && r.startNewCycle
  let newSplits := r.splits.getD u.splits
  if splitsSum newSplits ≠ 100 then
    (Resp.err 400 "Splits must sum to 100", u)
  else if startMonthBadFormat r.startMonth then
    (Resp.err 400 "startMonth must be in YYYY-MM format", u)
  else if r.startNewCycle then
    match r.startMonth with
    | none =>
        (Resp.err 400 "startMonth must be provided in YYYY-MM format when starting a new cycle", u)
    | some m =>
        if ¬ truthyStr m ∨ validateMonthFormat m = false then
          (Resp.err 400 "startMonth must be provided in YYYY-MM format when starting a new cycle", u)
        else if truthyStr u.salaryLockedMonth ∧ u.salaryLockedMonth = m then
          (Resp.err 409 ("Salary for " ++ m ++ " is locked and cannot be overwritten"), u)
        else
          let historyEntry : HistoryEntry :=
            { salary := u.salary, startMonth := jsOrStr (some u.startMonth) "",
              extraIncome := jsNumOr0 r.extraIncome, createdAt := now }
          let distributed :=
            computeDistribution (some (jsNumOr0 r.salary)) newSplits (some (jsNumOr0 r.extraIncome))
          (Resp.ok,
           { u with
              salary := jsNumOr0 r.salary
              startMonth := jsOrStr (some m) ""
              salaryLockedMonth := jsOrStr (some m) ""
              splits := newSplits
              preset := jsOrStr r.preset u.preset
              automate := r.automate.getD u.automate
              activeTracking := willActivateTracking
              onboardComplete := true
              distribution := distributed
              salaryHistory := u.salaryHistory ++ [historyEntry] })
  else
    (Resp.ok,
     { u with
        salary := jsOrNum r.salary (jsOrNum (some u.salary) 0)
        salaryFrequency := r.salaryFrequency.getD u.salaryFrequency
        splits := newSplits
        preset := jsOrStr r.preset u.preset
        onboardComplete := true
        automate := r.automate.getD u.automate
        startMonth := (match r.startMonth with
                       | some s => jsOrStr (some s) ""
                       | none => u.startMonth) })

/-- The body of `POST /api/simulate-distribute` (line 347). -/
structure SimRequest where
  salary : Option ℚ
  splits : Option (List (String × Option ℚ))
  preset : Option String
  month : Option String
  extraIncome : Option ℚ
deriving DecidableEq

/-- The resolved target month (line 355):
`month || req.user.startMonth || <current month>`. -/
def resolvedTargetMonth (u : UserState) (r : SimRequest) (today : String) : String :=
  jsOrStr r.month (jsOrStr (some u.startMonth) today)

/-- `POST /api/simulate-distribute` (lines 345–375). -/
def simulateDistribute (u : UserState) (r : SimRequest) (today : String) :
    Resp × UserState :=
  let salary := r.salary.getD u.salary
  let splits := r.splits.getD u.splits
  if splitsSum splits ≠ 100 then
    (Resp.err 400 "Splits must sum to 100", u)
  else
    let targetMonth := resolvedTargetMonth u r today
    if validateMonthFormat targetMonth = false then
      (Resp.err 400 "month must be in YYYY-MM format", u)
    else if truthyStr u.salaryLockedMonth ∧ u.salaryLockedMonth = targetMonth then
      (Resp.err 409 ("Salary distribution for " ++ targetMonth ++
        " is locked and cannot be overwritten"), u)
    else
      let totalSalaryForMonth := salary + jsNumOr0 r.extraIncome
      let distributed := computeDistribution (some totalSalaryForMonth) splits (some 0)
      (Resp.ok, { u with distribution := distributed })

/-- `ensureMonthlyAutomation` (lines 94–110): the per-month automation sweep
run during profile fetch. -/
def ensureMonthlyAutomation (u : UserState) (currentMonth : String) : UserState :=
  if u.automate = false then u
  else if u.lastAutomatedMonth = currentMonth then u
  else
    { u with
        distribution := computeDistribution (some (jsOrNum (some u.salary) 0)) u.splits (some 0)
        lastAutomatedMonth := currentMonth }

/-- A stored transaction document (models/Transaction.js). -/
structure Txn where
  id : Nat
  userId : Nat
  bucket : String
  category : Option String
  amount : ℚ
  createdAt : Nat
deriving DecidableEq

/-- The body of `POST /api/transactions` (line 407). -/
structure TxnRequest where
  bucket : Option String
  category : Option String
  amount : Option ℚ
deriving DecidableEq

/-- `Object.assign({}, dist, {[bucket]: next})`: replace the value stored
under `k`, keeping every other entry. -/
def setKey (l : List (String × ℚ)) (k : String) (v : ℚ) : List (String × ℚ) :=
  l.map fun p => if p.1 = k then (p.1, v) else p

/-- `POST /api/transactions` (lines 402–431): create the transaction, then
deduct its amount from the user's distribution entry for that bucket if one
exists, floored at 0. -/
def addTransaction (u : UserState) (txns : List Txn) (uid : Nat) (r : TxnRequest)
    (now newId : Nat) : Resp × UserState × List Txn :=
  let amt := jsNumOr0 r.amount
  match r.bucket with
  | none => (Resp.err 400 "Invalid payload", u, txns)
  | some b =>
      if ¬ truthyStr b ∨ amt = 0 ∨ amt ≤ 0 then
        (Resp.err 400 "Invalid payload", u, txns)
      else
        let txn : Txn :=
          { id := newId, userId := uid, bucket := b, category := r.category,
            amount := amt, createdAt := now }
        let u' :=
          match u.distribution.lookup b with
          | none => u
          | some prev =>
              let next := max 0 (jsOrNum (some prev) 0 - amt)
              { u with distribution := setKey u.distribution b next }
        (Resp.ok, u', txns ++ [txn])

/-- `DELETE /api/transactions/:id` (lines 434–455): owner-only deletion;
`idValid` models `mongoose.Types.ObjectId.isValid(id)`.  The user record is
not part of the handler at all. -/
def deleteTransaction (u : UserState) (txns : List Txn) (uid : Nat)
    (idValid : Bool) (id : Nat) : Resp × UserState × List Txn :=
  if idValid = false then
    (Resp.err 400 "Invalid transaction ID", u, txns)
  else
    match txns.find? (fun t => t.id == id && t.userId == uid) with
    | none => (Resp.err 404 "Transaction not found or unauthorized", u, txns)
    | some t => (Resp.ok, u, txns.filter (fun t2 => t2.id != t.id))

/-! ### Helper lemmas -/

theorem jsOrStr_some_empty (s : String) : jsOrStr (some s) "" = s := by
  unfold jsOrStr
  split <;> simp_all

theorem jsOrNum_some_zero (q : ℚ) : jsOrNum (some q) 0 = q := by
  unfold jsOrNum
  split <;> simp_all

theorem jsOrNum_none (y : ℚ) : jsOrNum none y = y := rfl

theorem jsOrNum_falsy (y : ℚ) : jsOrNum (some 0) y = y := by
  simp [jsOrNum]

theorem truthyStr_of_valid {m : String} (h : validateMonthFormat m = true) :
    truthyStr m = true := by
  by_cases hm : m = ""
  · subst hm
    exact absurd h (by decide)
  · simpa [truthyStr] using hm

theorem lookup_map_value (g : Option ℚ → ℚ) (l : List (String × Option ℚ)) (k : String) :
    (l.map fun p => (p.1, g p.2)).lookup k = (l.lookup k).map g := by
  induction l with
  | nil => rfl
  | cons p t ih =>
      cases hk : (k == p.1) <;>
        simp [List.lookup, hk, ih]

theorem setKey_cons (a : String) (b : ℚ) (t : List (String × ℚ)) (k : String) (v : ℚ) :
    setKey ((a, b) :: t) k v = (if a = k then (a, v) else (a, b)) :: setKey t k v := rfl

theorem lookup_setKey_self (l : List (String × ℚ)) (k : String) (v : ℚ) :
    (setKey l k v).lookup k = (l.lookup k).map fun _ => v := by
  induction l with
  | nil => rfl
  | cons p t ih =>
      obtain ⟨a, b⟩ := p
      rw [setKey_cons]
      by_cases hk : a = k
      · subst hk
        rw [if_pos rfl]
        simp [List.lookup]
      · have hk' : (k == a) = false := by
          rw [beq_eq_false_iff_ne]
          exact fun e => hk e.symm
        rw [if_neg hk]
        simp [List.lookup, hk', ih]

theorem lookup_setKey_ne (l : List (String × ℚ)) (k : String) (v : ℚ) (k' : String)
    (h : k' ≠ k) : (setKey l k v).lookup k' = l.lookup k' := by
  induction l with
  | nil => rfl
  | cons p t ih =>
      obtain ⟨a, b⟩ := p
      rw [setKey_cons]
      by_cases hk : a = k
      · subst hk
        have hk' : (k' == a) = false := beq_eq_false_iff_ne.mpr h
        rw [if_pos rfl]
        simp [List.lookup, hk', ih]
      · rw [if_neg hk]
        cases hk2 : (k' == a) <;> simp [List.lookup, hk2, ih]

/-- The user record a successful cycle start persists (lines 279–294). -/
def cycleNextState (u : UserState) (r : ProfileRequest) (now : Nat) (m : String) : UserState :=
  { u with
      salary := jsNumOr0 r.salary
      startMonth := m
      salaryLockedMonth := m
      splits := r.splits.getD u.splits
      preset := jsOrStr r.preset u.preset
      automate := r.automate.getD u.automate
      activeTracking := r.automate.getD false && r.startNewCycle
      onboardComplete := true
      distribution := computeDistribution (some (jsNumOr0 r.salary)) (r.splits.getD u.splits)
        (some (jsNumOr0 r.extraIncome))
      salaryHistory := u.salaryHistory ++
        [{ salary := u.salary, startMonth := u.startMonth,
           extraIncome := jsNumOr0 r.extraIncome, createdAt := now }] }

theorem putProfile_cycle_eq (u : UserState) (r : ProfileRequest) (now : Nat) (m : String)
    (h1 : r.startNewCycle = true)
    (h2 : splitsSum (r.splits.getD u.splits) = 100)
    (h3 : r.startMonth = some m)
    (h4 : validateMonthFormat m = true)
    (h5 : ¬ (truthyStr u.salaryLockedMonth = true ∧ u.salaryLockedMonth = m)) :
    putProfile u r now = (Resp.ok, cycleNextState u r now m) := by
  have hm := truthyStr_of_valid h4
  simp only [putProfile, h1, h3]
  rw [if_neg (by simp [h2])]
  rw [if_neg (by simp [startMonthBadFormat, hm, h4])]
  rw [if_pos trivial]
  rw [if_neg (by simp [hm, h4])]
  rw [if_neg h5]
  simp [cycleNextState, jsOrStr_some_empty, h1]

theorem putProfile_conflict_eq (u : UserState) (r : ProfileRequest) (now : Nat) (m : String)
    (h1 : r.startNewCycle = true)
    (h2 : splitsSum (r.splits.getD u.splits) = 100)
    (h3 : r.startMonth = some m)
    (h4 : validateMonthFormat m = true)
    (h5 : truthyStr u.salaryLockedMonth = true ∧ u.salaryLockedMonth = m) :
    putProfile u r now =
      (Resp.err 409 ("Salary for " ++ m ++ " is locked and cannot be overwritten"), u) := by
  have hm := truthyStr_of_valid h4
  simp only [putProfile, h1, h3]
  rw [if_neg (by simp [h2])]
  rw [if_neg (by simp [startMonthBadFormat, hm, h4])]
  rw [if_pos trivial]
  rw [if_neg (by simp [hm, h4])]
  rw [if_pos h5]

theorem simulate_conflict_eq (u : UserState) (s : SimRequest) (today : String)
    (hs1 : splitsSum (s.splits.getD u.splits) = 100)
    (hv : validateMonthFormat (resolvedTargetMonth u s today) = true)
    (hL : truthyStr u.salaryLockedMonth = true ∧
          u.salaryLockedMonth = resolvedTargetMonth u s today) :
    simulateDistribute u s today =
      (Resp.err 409 ("Salary distribution for " ++ resolvedTargetMonth u s today ++
        " is locked and cannot be overwritten"), u) := by
  simp only [simulateDistribute]
  rw [if_neg (by simp [hs1])]
  rw [if_neg (by simp [hv])]
  rw [if_pos hL]

/-! ### Claim C9: month-key validation -/

/-- The claim's reading of the YYYY-MM pattern: four digits, a hyphen, two
digits, and the numeric month value between 1 and 12. -/
def monthSpecHolds (s : String) : Prop :=
  ∃ y1 y2 y3 y4 m1 m2 : Char,
    s.data = [y1, y2, y3, y4, '-', m1, m2] ∧
    y1.isDigit = true ∧ y2.isDigit = true ∧ y3.isDigit = true ∧ y4.isDigit = true ∧
    m1.isDigit = true ∧ m2.isDigit = true ∧
    1 ≤ 10 * (m1.toNat - 48) + (m2.toNat - 48) ∧
    10 * (m1.toNat - 48) + (m2.toNat - 48) ≤ 12

/-- C9: `validateMonthFormat s` is true iff `s` matches YYYY-MM (four
digits, hyphen, two digits) with numeric month between 01 and 12, with no
bound on the year; in particular it rejects "2025-13", "2025-00" and
"25-01" and accepts "2025-01". -/
theorem validateMonthFormat_correct :
    (∀ s : String, validateMonthFormat s = true ↔ monthSpecHolds s) ∧
    validateMonthFormat "2025-13" = false ∧ validateMonthFormat "2025-00" = false ∧
    validateMonthFormat "2025-01" = true ∧ validateMonthFormat "25-01" = false := by
  refine ⟨fun s => ?_, by decide, by decide, by decide, by decide⟩
  constructor
  · intro h
    unfold validateMonthFormat at h
    split at h
    case _ y1 y2 y3 y4 d m1 m2 heq =>
      simp only [Bool.and_eq_true, beq_iff_eq, decide_eq_true_eq] at h
      refine ⟨y1, y2, y3, y4, m1, m2, ?_, ?_, ?_, ?_, ?_, ?_, ?_, ?_, ?_⟩ <;>
        simp_all
    case _ => exact absurd h (by simp)
  · rintro ⟨y1, y2, y3, y4, m1, m2, heq, h1, h2, h3, h4, h5, h6, hlo, hhi⟩
    unfold validateMonthFormat
    rw [heq]
    simp [h1, h2, h3, h4, h5, h6, hlo, hhi]

/-! ### Claim C4: the distribution calculator -/

/-- C4: `computeDistribution` is pure and deterministic, its result has
exactly the keys of `splits`, each bucket holds
`round((salary + extraIncome) * pct / 100)` with absent/invalid numeric
inputs coerced to 0, and it sends `(50000, {savings:30, needs:70}, 5000)`
to `{savings:16500, needs:38500}` and the same with extra 0 to
`{savings:15000, needs:35000}`. -/
theorem computeDistribution_correct :
    (∀ (salary : Option ℚ) (splits : List (String × Option ℚ)) (extraIncome : Option ℚ),
       (computeDistribution salary splits extraIncome).map Prod.fst = splits.map Prod.fst) ∧
    (∀ (salary : Option ℚ) (splits : List (String × Option ℚ)) (extraIncome : Option ℚ)
       (k : String) (pct : Option ℚ),
       splits.lookup k = some pct →
       (computeDistribution salary splits extraIncome).lookup k =
         some ((jsRound ((jsNumOr0 salary + jsNumOr0 extraIncome) * jsNumOr0 pct / 100) : ℤ) : ℚ)) ∧
    computeDistribution (some 50000) [("savings", some 30), ("needs", some 70)] (some 5000) =
      [("savings", 16500), ("needs", 38500)] ∧
    computeDistribution (some 50000) [("savings", some 30), ("needs", some 70)] (some 0) =
      [("savings", 15000), ("needs", 35000)] := by
  refine ⟨?_, ?_, by decide, by decide⟩
  · intro salary splits extraIncome
    unfold computeDistribution
    simp
  · intro salary splits extraIncome k pct h
    simp only [computeDistribution]
    rw [lookup_map_value
      (fun o => ((jsRound ((jsNumOr0 salary + jsNumOr0 extraIncome) * jsNumOr0 o / 100) : ℤ) : ℚ)),
      h]
    rfl

/-! ### Claim C1: locked-month conflicts -/

/-- A user whose `salaryLockedMonth` is `"2025-03"`. -/
def c1User : UserState :=
  { salary := 100, salaryFrequency := "monthly",
    splits := [("a", some 60), ("b", some 40)],
    distribution := [("a", 60), ("b", 40)],
    preset := "balanced", automate := false, activeTracking := false,
    startMonth := "2025-01", salaryLockedMonth := "2025-03",
    lastAutomatedMonth := "", salaryHistory := [], onboardComplete := true }

/-- A cycle-start request targeting the locked month. -/
def c1CycleReq : ProfileRequest :=
  { salary := some 200, salaryFrequency := none, splits := none, preset := none,
    automate := none, startMonth := some "2025-03", startNewCycle := true,
    extraIncome := none }

/-- A simulate request resolving to the locked month. -/
def c1SimReq : SimRequest :=
  { salary := none, splits := none, preset := none, month := some "2025-03",
    extraIncome := none }

/-- C1: for a user whose (well-formed) `salaryLockedMonth` is non-empty, a
cycle-start profile update for that month and a simulate-distribute call
resolving to that month are both rejected with a 409 conflict and leave the
user record unchanged; and every successful cycle start for a month `m` sets
`salaryLockedMonth = m`, so a later cycle start or simulate for `m`
conflicts. -/
theorem locked_month_conflicts (u : UserState) (r : ProfileRequest) (s : SimRequest)
    (now : Nat) (today : String) (m : String)
    (hm : validateMonthFormat m = true)
    (hlock : u.salaryLockedMonth = m)
    (hr1 : r.startNewCycle = true)
    (hr2 : r.startMonth = some m)
    (hr3 : splitsSum (r.splits.getD u.splits) = 100)
    (hs1 : splitsSum (s.splits.getD u.splits) = 100)
    (hs2 : resolvedTargetMonth u s today = m) :
    ((putProfile u r now).1 =
        Resp.err 409 ("Salary for " ++ m ++ " is locked and cannot be overwritten") ∧
      (putProfile u r now).2 = u) ∧
    ((simulateDistribute u s today).1 =
        Resp.err 409 ("Salary distribution for " ++ m ++ " is locked and cannot be overwritten") ∧
      (simulateDistribute u s today).2 = u) ∧
    (∀ (u' : UserState) (r' : ProfileRequest),
       r'.startNewCycle = true → r'.startMonth = some m →
       splitsSum (r'.splits.getD u'.splits) = 100 →
       ¬ (truthyStr u'.salaryLockedMonth = true ∧ u'.salaryLockedMonth = m) →
       (putProfile u' r' now).2.salaryLockedMonth = m) := by
  have hmt := truthyStr_of_valid hm
  have hL : truthyStr u.salaryLockedMonth = true ∧ u.salaryLockedMonth = m :=
    ⟨by rw [hlock]; exact hmt, hlock⟩
  refine ⟨?_, ?_, ?_⟩
  · rw [putProfile_conflict_eq u r now m hr1 hr3 hr2 hm hL]
    exact ⟨rfl, rfl⟩
  · rw [simulate_conflict_eq u s today hs1 (by rw [hs2]; exact hm) (by rw [hs2]; exact hL),
      hs2]
    exact ⟨rfl, rfl⟩
  · intro u' r' h1 h2 h3 h5
    rw [putProfile_cycle_eq u' r' now m h1 h3 h2 hm h5]
    rfl

/-- Witness for C1 at the concrete fixtures. -/
theorem locked_month_conflicts_witness :
    (putProfile c1User c1CycleReq 0).1 =
        Resp.err 409 ("Salary for " ++ "2025-03" ++ " is locked and cannot be overwritten") ∧
    (simulateDistribute c1User c1SimReq "2025-04").1 =
        Resp.err 409 ("Salary distribution for " ++ "2025-03" ++
          " is locked and cannot be overwritten") := by
  have h := locked_month_conflicts c1User c1CycleReq c1SimReq 0 "2025-04" "2025-03"
    (by decide) (by decide) (by decide) (by decide) (by decide) (by decide) (by decide)
  exact ⟨h.1.1, h.2.1.1⟩

/-! ### Claim C2: history append on cycle start -/

/-- A user with no lock and empty history. -/
def c2User : UserState :=
  { salary := 100, salaryFrequency := "monthly",
    splits := [("a", some 60), ("b", some 40)],
    distribution := [("a", 60), ("b", 40)],
    preset := "balanced", automate := false, activeTracking := false,
    startMonth := "2025-01", salaryLockedMonth := "",
    lastAutomatedMonth := "", salaryHistory := [], onboardComplete := true }

/-- A cycle-start request with no extraIncome. -/
def c2ReqA : ProfileRequest :=
  { salary := some 200, salaryFrequency := none, splits := none, preset := none,
    automate := none, startMonth := some "2025-02", startNewCycle := true,
    extraIncome := none }

/-- The same cycle-start request with extraIncome 7. -/
def c2ReqB : ProfileRequest := { c2ReqA with extraIncome := some 7 }

/-- C2 counterexample: the appended `salaryHistory` entry does not capture
any previous (pre-transition) extraIncome — it records the REQUEST's
extraIncome.  Two successful cycle starts from the same pre-state (empty
history, so no prior extraIncome other than nothing at all) that differ only
in the request's extraIncome append entries recording 0 and 7
respectively. -/
theorem history_entry_records_request_extra :
    c2ReqB = { c2ReqA with extraIncome := some 7 } ∧
    (putProfile c2User c2ReqA 5).1 = Resp.ok ∧
    (putProfile c2User c2ReqB 5).1 = Resp.ok ∧
    (putProfile c2User c2ReqA 5).2.salaryHistory.map HistoryEntry.extraIncome = [0] ∧
    (putProfile c2User c2ReqB 5).2.salaryHistory.map HistoryEntry.extraIncome = [7] := by
  exact ⟨rfl, by decide, by decide, by decide, by decide⟩

/-- C2 (amended): every successful cycle start appends exactly one entry to
`salaryHistory`, capturing the previous (pre-transition) salary and
startMonth together with the request's extraIncome (coerced to a number,
default 0) and the creation timestamp; existing entries are unchanged. -/
theorem cycle_appends_history (u : UserState) (r : ProfileRequest) (now : Nat) (m : String)
    (h1 : r.startNewCycle = true)
    (h2 : splitsSum (r.splits.getD u.splits) = 100)
    (h3 : r.startMonth = some m)
    (h4 : validateMonthFormat m = true)
    (h5 : ¬ (truthyStr u.salaryLockedMonth = true ∧ u.salaryLockedMonth = m)) :
    (putProfile u r now).1 = Resp.ok ∧
    (putProfile u r now).2.salaryHistory =
      u.salaryHistory ++ [⟨u.salary, u.startMonth, jsNumOr0 r.extraIncome, now⟩] := by
  rw [putProfile_cycle_eq u r now m h1 h2 h3 h4 h5]
  exact ⟨rfl, rfl⟩

/-- Witness for C2 (amended) at the concrete fixtures. -/
theorem cycle_appends_history_witness :
    (putProfile c2User c2ReqB 5).1 = Resp.ok ∧
    (putProfile c2User c2ReqB 5).2.salaryHistory =
      c2User.salaryHistory ++ [⟨c2User.salary, c2User.startMonth, jsNumOr0 c2ReqB.extraIncome, 5⟩] :=
  cycle_appends_history c2User c2ReqB 5 "2025-02"
    (by decide) (by decide) (by decide) (by decide) (by decide)

/-! ### Claim C3: when the distribution is recomputed -/

/-- A user with a stored distribution matching salary 100. -/
def c3User : UserState :=
  { salary := 100, salaryFrequency := "monthly",
    splits := [("a", some 100)],
    distribution := [("a", 100)],
    preset := "balanced", automate := false, activeTracking := false,
    startMonth := "2025-01", salaryLockedMonth := "",
    lastAutomatedMonth := "", salaryHistory := [], onboardComplete := true }

/-- A non-cycle update changing the salary to 200. -/
def c3Req : ProfileRequest :=
  { salary := some 200, salaryFrequency := none, splits := none, preset := none,
    automate := none, startMonth := none, startNewCycle := false,
    extraIncome := none }

/-- C3 counterexample: a non-cycle profile update that changes the salary
(100 → 200) succeeds but leaves the stored distribution unchanged, and that
stored distribution does not equal a recomputation from the new salary and
splits — so the distribution is NOT recomputed on every salary-changing
profile update. -/
theorem distribution_stale_after_update :
    (putProfile c3User c3Req 0).1 = Resp.ok ∧
    (putProfile c3User c3Req 0).2.salary = 200 ∧ c3User.salary = 100 ∧
    (putProfile c3User c3Req 0).2.distribution = c3User.distribution ∧
    (putProfile c3User c3Req 0).2.distribution ≠
      computeDistribution (some 200) ((putProfile c3User c3Req 0).2.splits) (some 0) := by
  exact ⟨by decide, by decide, by decide, by decide, by decide⟩

/-- C3 (amended): the stored distribution is recomputed via the Distribution
Calculator and persisted by cycle-start updates (from the request's salary,
the new splits and the request's extraIncome); a profile update without the
startNewCycle flag leaves the stored distribution unchanged, even when it
changes salary or splits. -/
theorem distribution_recompute_on_cycle_only :
    (∀ (u : UserState) (r : ProfileRequest) (now : Nat) (m : String),
       r.startNewCycle = true → splitsSum (r.splits.getD u.splits) = 100 →
       r.startMonth = some m → validateMonthFormat m = true →
       ¬ (truthyStr u.salaryLockedMonth = true ∧ u.salaryLockedMonth = m) →
       (putProfile u r now).2.distribution =
         computeDistribution (some (jsNumOr0 r.salary)) (r.splits.getD u.splits)
           (some (jsNumOr0 r.extraIncome))) ∧
    (∀ (u : UserState) (r : ProfileRequest) (now : Nat),
       r.startNewCycle = false →
       (putProfile u r now).2.distribution = u.distribution) := by
  constructor
  · intro u r now m h1 h2 h3 h4 h5
    rw [putProfile_cycle_eq u r now m h1 h2 h3 h4 h5]
    rfl
  · intro u r now h
    simp only [putProfile, h, Bool.false_eq_true, if_false]
    split
    · rfl
    · split
      · rfl
      · rfl

/-! ### Claim C10: falsy salary handling -/

/-- C10: on a non-cycle profile update, a falsy request salary (absent or 0)
leaves the stored salary equal to its previous value, so salary cannot be set
to 0 that way; a cycle start with falsy salary stores 0. -/
theorem falsy_salary_fallback :
    (∀ (u : UserState) (r : ProfileRequest) (now : Nat),
       r.startNewCycle = false →
       (r.salary = none ∨ r.salary = some 0) →
       splitsSum (r.splits.getD u.splits) = 100 →
       startMonthBadFormat r.startMonth = false →
       (putProfile u r now).1 = Resp.ok ∧ (putProfile u r now).2.salary = u.salary) ∧
    (∀ (u : UserState) (r : ProfileRequest) (now : Nat) (m : String),
       r.startNewCycle = true →
       (r.salary = none ∨ r.salary = some 0) →
       splitsSum (r.splits.getD u.splits) = 100 →
       r.startMonth = some m → validateMonthFormat m = true →
       ¬ (truthyStr u.salaryLockedMonth = true ∧ u.salaryLockedMonth = m) →
       (putProfile u r now).2.salary = 0) := by
  constructor
  · intro u r now h0 hs hsum hbad
    simp only [putProfile, h0, Bool.false_eq_true, if_false]
    rw [if_neg (by simp [hsum])]
    rw [if_neg (by simp [hbad])]
    refine ⟨rfl, ?_⟩
    rcases hs with h | h <;>
      simp only [h, jsOrNum_none, jsOrNum_falsy, jsOrNum_some_zero]
  · intro u r now m h1 hs h2 h3 h4 h5
    rw [putProfile_cycle_eq u r now m h1 h2 h3 h4 h5]
    rcases hs with h | h <;> simp [cycleNextState, h, jsNumOr0]

/-! ### Claim C5: splits validation at the endpoints -/

/-- C5: at both endpoints the splits check succeeds iff the supplied (or
fallback) splits values — missing/non-numeric treated as 0 — sum to exactly
100: when the sum differs the call fails with a 400 splits error and the
stored record is unchanged; when the sum is 100 the call never fails with
the splits error. -/
theorem splits_validation_iff :
    (∀ (u : UserState) (r : ProfileRequest) (now : Nat),
       (splitsSum (r.splits.getD u.splits) ≠ 100 →
         putProfile u r now = (Resp.err 400 "Splits must sum to 100", u)) ∧
       (splitsSum (r.splits.getD u.splits) = 100 →
         (putProfile u r now).1 ≠ Resp.err 400 "Splits must sum to 100")) ∧
    (∀ (u : UserState) (s : SimRequest) (today : String),
       (splitsSum (s.splits.getD u.splits) ≠ 100 →
         simulateDistribute u s today = (Resp.err 400 "Splits must sum to 100", u)) ∧
       (splitsSum (s.splits.getD u.splits) = 100 →
         (simulateDistribute u s today).1 ≠ Resp.err 400 "Splits must sum to 100")) := by
  constructor
  · intro u r now
    constructor
    · intro h
      simp only [putProfile]
      rw [if_pos h]
    · intro h
      simp only [putProfile]
      rw [if_neg (by simp [h])]
      split
      · simp
      · split
        · split
          · simp
          · split
            · simp
            · split
              · simp
              · simp
        · simp
  · intro u s today
    constructor
    · intro h
      simp only [simulateDistribute]
      rw [if_pos h]
    · intro h
      simp only [simulateDistribute]
      rw [if_neg (by simp [h])]
      split
      · simp
      · split
        · simp
        · simp

/-! ### Claim C6: the automation sweep -/

/-- C6: when automate is set and lastAutomatedMonth differs from the current
month, one sweep recomputes the distribution from the stored salary and
splits with extraIncome 0 and stamps lastAutomatedMonth; a second run in the
same month is a no-op, and with automate unset or the month already stamped
the sweep changes nothing. -/
theorem automation_sweep_correct :
    (∀ (u : UserState) (mo : String), u.automate = true → u.lastAutomatedMonth ≠ mo →
       ensureMonthlyAutomation u mo =
         { u with
             distribution := computeDistribution (some u.salary) u.splits (some 0),
             lastAutomatedMonth := mo }) ∧
    (∀ (u : UserState) (mo : String),
       ensureMonthlyAutomation (ensureMonthlyAutomation u mo) mo =
         ensureMonthlyAutomation u mo) ∧
    (∀ (u : UserState) (mo : String), u.automate = false →
       ensureMonthlyAutomation u mo = u) ∧
    (∀ (u : UserState) (mo : String), u.lastAutomatedMonth = mo →
       ensureMonthlyAutomation u mo = u) := by
  refine ⟨?_, ?_, ?_, ?_⟩
  · intro u mo ha hl
    unfold ensureMonthlyAutomation
    rw [if_neg (by simp [ha]), if_neg hl, jsOrNum_some_zero]
  · intro u mo
    by_cases ha : u.automate = false
    · simp [ensureMonthlyAutomation, ha]
    · by_cases hl : u.lastAutomatedMonth = mo
      · simp [ensureMonthlyAutomation, ha, hl]
      · simp [ensureMonthlyAutomation, ha, hl]
  · intro u mo ha
    unfold ensureMonthlyAutomation
    rw [if_pos ha]
  · intro u mo hl
    unfold ensureMonthlyAutomation
    by_cases ha : u.automate = false
    · rw [if_pos ha]
    · rw [if_neg ha, if_pos hl]

/-! ### Claim C7: transaction recording deducts from the bucket -/

theorem addTransaction_ok_eq (u : UserState) (txns : List Txn) (uid : Nat)
    (r : TxnRequest) (now newId : Nat) (b : String) (A X : ℚ)
    (hb : r.bucket = some b) (hbt : truthyStr b = true)
    (hX : r.amount = some X) (hXpos : 0 < X)
    (hA : u.distribution.lookup b = some A) :
    addTransaction u txns uid r now newId =
      (Resp.ok,
       { u with distribution := setKey u.distribution b (max 0 (A - X)) },
       txns ++ [⟨newId, uid, b, r.category, X, now⟩]) := by
  have hamt : jsNumOr0 r.amount = X := by rw [hX]; rfl
  simp only [addTransaction, hb, hamt, hA]
  rw [if_neg (by push_neg; exact ⟨hbt, hXpos.ne', hXpos⟩)]
  rw [jsOrNum_some_zero]

/-- A user holding allocations a↦60, b↦40. -/
def c7User : UserState :=
  { salary := 100, salaryFrequency := "monthly",
    splits := [("a", some 60), ("b", some 40)],
    distribution := [("a", 60), ("b", 40)],
    preset := "balanced", automate := false, activeTracking := false,
    startMonth := "2025-01", salaryLockedMonth := "",
    lastAutomatedMonth := "", salaryHistory := [], onboardComplete := true }

/-- A spend of 15 against bucket a. -/
def c7Req : TxnRequest :=
  { bucket := some "a", category := some "food", amount := some 15 }

/-- C7: adding a transaction of amount X > 0 against a bucket b that holds a
prior allocation A creates the transaction record and updates
distribution[b] to max(0, A − X) — never negative — leaving every other
bucket unchanged. -/
theorem addTransaction_deducts (u : UserState) (txns : List Txn) (uid : Nat)
    (r : TxnRequest) (now newId : Nat) (b : String) (A X : ℚ)
    (hb : r.bucket = some b) (hbt : truthyStr b = true)
    (hX : r.amount = some X) (hXpos : 0 < X)
    (hA : u.distribution.lookup b = some A) :
    (addTransaction u txns uid r now newId).1 = Resp.ok ∧
    (addTransaction u txns uid r now newId).2.2 =
      txns ++ [⟨newId, uid, b, r.category, X, now⟩] ∧
    (addTransaction u txns uid r now newId).2.1.distribution.lookup b =
      some (max 0 (A - X)) ∧
    (∀ k, k ≠ b →
      (addTransaction u txns uid r now newId).2.1.distribution.lookup k =
        u.distribution.lookup k) := by
  rw [addTransaction_ok_eq u txns uid r now newId b A X hb hbt hX hXpos hA]
  refine ⟨rfl, rfl, ?_, ?_⟩
  · show (setKey u.distribution b (max 0 (A - X))).lookup b = some (max 0 (A - X))
    rw [lookup_setKey_self, hA]
    rfl
  · intro k hk
    exact lookup_setKey_ne u.distribution b (max 0 (A - X)) k hk

/-- Witness for C7 at the concrete fixtures. -/
theorem addTransaction_deducts_witness :
    (addTransaction c7User [] 3 c7Req 9 1).1 = Resp.ok ∧
    (addTransaction c7User [] 3 c7Req 9 1).2.1.distribution.lookup "a" =
      some (max 0 (60 - 15)) := by
  have h := addTransaction_deducts c7User [] 3 c7Req 9 1 "a" 60 15
    (by decide) (by decide) (by decide) (by decide) (by decide)
  exact ⟨h.1, h.2.2.1⟩

/-! ### Claim C8: deletion never restores the distribution -/

/-- C8: deleting a transaction (owner-only, any outcome) leaves the user's
record — in particular the distribution — unchanged: the amount deducted at
creation time is never restored by deletion. -/
theorem deleteTransaction_preserves_user (u : UserState) (txns : List Txn) (uid : Nat)
    (idValid : Bool) (id : Nat) :
    (deleteTransaction u txns uid idValid id).2.1 = u ∧
    (deleteTransaction u txns uid idValid id).2.1.distribution = u.distribution := by
  have h : (deleteTransaction u txns uid idValid id).2.1 = u := by
    unfold deleteTransaction
    split
    · rfl
    · split <;> rfl
  exact ⟨h, by rw [h]⟩

end Spewn
